import Mathlib

/-!
Verification development for the physiotherapy exercise-monitoring system:
a shallow embedding of the frontend pose-angle utilities (TypeScript) and of
the backend phase/repetition state machine, together with theorems settling
the specification's claims about them.
-/

namespace Physio

/-- A 2-D point, as used by the frontend angle computations (only the `x` and
`y` fields of a MediaPipe landmark are read by the angle code). -/
structure Pt where
  x : ℝ
  y : ℝ

/-- Embeds `calculateAngle` from the landmark-utility module: the angle at
`p2` between the rays towards `p1` and `p3`, computed via the dot product,
with the cosine clamped to [-1, 1] before `acos`, returned in degrees. -/
noncomputable def calculateAngle (p1 p2 p3 : Pt) : ℝ :=
  let v1x := p1.x - p2.x
  let v1y := p1.y - p2.y
  let v2x := p3.x - p2.x
  let v2y := p3.y - p2.y
  let dotProduct := v1x * v2x + v1y * v2y
  let magnitude1 := Real.sqrt (v1x * v1x + v1y * v1y)
  let magnitude2 := Real.sqrt (v2x * v2x + v2y * v2y)
  let cosAngle := dotProduct / (magnitude1 * magnitude2)
  let angle := Real.arccos (max (-1) (min 1 cosAngle))
  angle * 180 / Real.pi

/-- Model of `Math.atan2 y x`: the argument of the complex number `x + y*i`,
with range (-pi, pi] and `atan2 0 0 = 0`. -/
noncomputable def atan2 (y x : ℝ) : ℝ := Complex.arg ⟨x, y⟩

/-- Embeds `MediaPipePoseDetector.calculateAngle`: the absolute difference of
the two `atan2` bearings around `b`, converted to degrees and folded back
into [0, 180] when it exceeds 180. -/
noncomputable def mpCalculateAngle (a b c : Pt) : ℝ :=
  let radians := atan2 (c.y - b.y) (c.x - b.x) - atan2 (a.y - b.y) (a.x - b.x)
  let angle := |radians * 180 / Real.pi|
  if angle > 180 then 360 - angle else angle

/-- Default point used to read a landmark from the list; with at least 33
landmarks every index the source reads is in range, so the default is never
actually returned. -/
def defaultPt : Pt := ⟨0, 0⟩

/-- Slot 0 of the angle vector, labelled the shoulder slot by the source:
the angle at the left elbow between the left shoulder and the left wrist. -/
noncomputable def shoulderAngle (lms : List Pt) : ℝ :=
  calculateAngle (lms.getD 11 defaultPt) (lms.getD 13 defaultPt) (lms.getD 15 defaultPt)

/-- Slot 1, the alternate shoulder slot: the right-side counterpart. -/
noncomputable def shoulderAltAngle (lms : List Pt) : ℝ :=
  calculateAngle (lms.getD 12 defaultPt) (lms.getD 14 defaultPt) (lms.getD 16 defaultPt)

/-- Slot 2, the elbow slot: the angle at the left elbow between the left
shoulder and the left wrist (the source pushes the same shoulder-elbow-wrist
triple into slots 0 and 2). -/
noncomputable def elbowAngle (lms : List Pt) : ℝ :=
  calculateAngle (lms.getD 11 defaultPt) (lms.getD 13 defaultPt) (lms.getD 15 defaultPt)

/-- Slot 3, the alternate elbow slot: the right-side counterpart. -/
noncomputable def elbowAltAngle (lms : List Pt) : ℝ :=
  calculateAngle (lms.getD 12 defaultPt) (lms.getD 14 defaultPt) (lms.getD 16 defaultPt)

/-- Slot 4, the hip slot: the angle at the left hip between the left
shoulder and the left knee. -/
noncomputable def hipAngle (lms : List Pt) : ℝ :=
  calculateAngle (lms.getD 11 defaultPt) (lms.getD 23 defaultPt) (lms.getD 25 defaultPt)

/-- Slot 5, the alternate hip slot: the right-side counterpart. -/
noncomputable def hipAltAngle (lms : List Pt) : ℝ :=
  calculateAngle (lms.getD 12 defaultPt) (lms.getD 24 defaultPt) (lms.getD 26 defaultPt)

/-- Slot 6, the knee slot: the angle at the left knee between the left hip
and the left ankle. -/
noncomputable def kneeAngle (lms : List Pt) : ℝ :=
  calculateAngle (lms.getD 23 defaultPt) (lms.getD 25 defaultPt) (lms.getD 27 defaultPt)

/-- Slot 7, the alternate knee slot: the right-side counterpart. -/
noncomputable def kneeAltAngle (lms : List Pt) : ℝ :=
  calculateAngle (lms.getD 24 defaultPt) (lms.getD 26 defaultPt) (lms.getD 28 defaultPt)

/-- Slot 8, the spine slot: the angle at the shoulder midpoint between a
vertical reference point just above it and the hip midpoint. -/
noncomputable def spineAngle (lms : List Pt) : ℝ :=
  let ls := lms.getD 11 defaultPt
  let rs := lms.getD 12 defaultPt
  let lh := lms.getD 23 defaultPt
  let rh := lms.getD 24 defaultPt
  let shoulderMid : Pt := ⟨(ls.x + rs.x) / 2, (ls.y + rs.y) / 2⟩
  let hipMid : Pt := ⟨(lh.x + rh.x) / 2, (lh.y + rh.y) / 2⟩
  let verticalRef : Pt := ⟨shoulderMid.x, shoulderMid.y - 0.1⟩
  calculateAngle verticalRef shoulderMid hipMid

/-- Embeds `extractJointAngles`: a null/undefined landmark list, or one with
fewer than 33 entries, yields nine zeros; otherwise the nine slot angles are
computed in order. The source wraps the computation in a try/catch that also
returns nine zeros, but with at least 33 landmarks every access is in range
and the angle arithmetic is total, so that branch is unreachable here. -/
noncomputable def extractJointAngles (landmarks : Option (List Pt)) : List ℝ :=
  match landmarks with
  | none => List.replicate 9 0
  | some lms =>
    if lms.length < 33 then List.replicate 9 0
    else
      [ shoulderAngle lms, shoulderAltAngle lms,
        elbowAngle lms, elbowAltAngle lms,
        hipAngle lms, hipAltAngle lms,
        kneeAngle lms, kneeAltAngle lms,
        spineAngle lms ]

/-- JavaScript `x || d` over the rational model: `0` is the only falsy
number representable here (NaN and undefined have no rational counterpart),
so the default applies exactly when `x = 0`. -/
def jsOrDefault (x d : ℚ) : ℚ := if x = 0 then d else x

/-- Result record of the simplified per-frame pattern detectors in
`MediaPipePoseDetector` (their `repCount` field is always 0: the frontend
detectors do not count repetitions). -/
structure PatternResult where
  confidence : ℚ
  phase : String
  repCount : ℕ
deriving DecidableEq

/-- Embeds `detectSquat`: average the two knee angles (each defaulting to
180 when falsy) and compare against the 150/100 thresholds. -/
def detectSquat (leftKnee rightKnee : ℚ) : PatternResult :=
  let l := jsOrDefault leftKnee 180
  let r := jsOrDefault rightKnee 180
  let avgKneeAngle := (l + r) / 2
  if avgKneeAngle > 150 then ⟨8/10, "up", 0⟩
  else if avgKneeAngle < 100 then ⟨8/10, "down", 0⟩
  else ⟨6/10, "transition", 0⟩

/-- Embeds `detectBicepCurl`: average the two elbow angles (each defaulting
to 180 when falsy) and compare against the 150/60 thresholds. -/
def detectBicepCurl (leftElbow rightElbow : ℚ) : PatternResult :=
  let l := jsOrDefault leftElbow 180
  let r := jsOrDefault rightElbow 180
  let avgElbowAngle := (l + r) / 2
  if avgElbowAngle > 150 then ⟨8/10, "down", 0⟩
  else if avgElbowAngle < 60 then ⟨8/10, "up", 0⟩
  else ⟨6/10, "transition", 0⟩

/-- Modelled from the spec: the per-exercise phase policy of the backend
phase/rep state machine (the backend service module is not among the given
sources; only its documentation and HTTP test scripts are). A policy names a
primary slot of the 9-slot angle vector, two non-adjacent thresholds with
the phases they imply, the end-of-cycle phase, the start-of-cycle phase that
closes a repetition, and the default entry phase. -/
structure PhasePolicy where
  primarySlot : ℕ
  highThreshold : ℚ
  lowThreshold : ℚ
  highPhase : String
  lowPhase : String
  cycleEndPhase : String
  cycleStartPhase : String
  entryPhase : String
deriving DecidableEq

/-- Modelled from the spec: the squat policy. Primary joint is the knee
(slot 6); knee angle above 150 means phase up, below 100 means phase down;
a repetition closes on the down-to-up edge, and the default entry phase is
the standing rest phase up. -/
def squatPolicy : PhasePolicy :=
  { primarySlot := 6, highThreshold := 150, lowThreshold := 100,
    highPhase := "up", lowPhase := "down",
    cycleEndPhase := "down", cycleStartPhase := "up", entryPhase := "up" }

/-- Modelled from the spec: the bicep-curl policy. Primary joint is the
elbow (slot 2); elbow angle above 150 means phase down, below 60 means phase
up; a repetition closes on the up-to-down edge, and the default entry phase
is the extended rest phase down. -/
def curlPolicy : PhasePolicy :=
  { primarySlot := 2, highThreshold := 150, lowThreshold := 60,
    highPhase := "down", lowPhase := "up",
    cycleEndPhase := "up", cycleStartPhase := "down", entryPhase := "down" }

/-- Modelled from the spec: table lookup from exercise label to phase
policy; exercises without a configured policy cause no phase or rep
activity. -/
def policyFor : String → Option PhasePolicy
  | "squat" => some squatPolicy
  | "bicep_curl" => some curlPolicy
  | _ => none

/-- Modelled from the spec: the instantaneous phase implied by comparing the
policy's primary joint angle against its thresholds; angles in the dead zone
between the thresholds imply no phase. -/
def instantaneousPhase (pol : PhasePolicy) (angles : List ℚ) : Option String :=
  let a := angles.getD pol.primarySlot 0
  if a > pol.highThreshold then some pol.highPhase
  else if a < pol.lowThreshold then some pol.lowPhase
  else none

/-- Modelled from the spec: the per-session durable state read and written
by the state machine. `last_exercise` records the effective exercise of the
previous predict call so an exercise switch can be observed. -/
structure SessionState where
  current_phase : String
  rep_count : ℕ
  last_exercise : Option String
deriving DecidableEq

/-- Modelled from the spec: the reset operation. Phase goes to the entry
phase of the selected exercise when one is supplied (the generic rest
default otherwise), the repetition count goes to 0. -/
def resetSession (selected : Option String) : SessionState :=
  { current_phase :=
      match selected with
      | some e =>
        match policyFor e with
        | some pol => pol.entryPhase
        | none => "down"
      | none => "down",
    rep_count := 0,
    last_exercise := selected }

/-- Modelled from the spec: the per-frame advance operation of the phase/rep
state machine. The effective exercise is the caller-selected one when
supplied, else the classifier's label. An exercise switch resets the phase
to the new policy's entry phase and preserves the repetition count without
processing thresholds on that frame. Otherwise the instantaneous phase is
computed; a dead-zone angle leaves the state unchanged; a phase change
updates the stored phase and increments the repetition count exactly on the
edge from the end-of-cycle phase to the start-of-cycle phase. -/
def advance (s : SessionState) (angles : List ℚ) (predicted : String)
    (selected : Option String) : SessionState :=
  let eff := selected.getD predicted
  match policyFor eff with
  | none => s
  | some pol =>
    if s.last_exercise ≠ some eff then
      { current_phase := pol.entryPhase, rep_count := s.rep_count,
        last_exercise := some eff }
    else
      match instantaneousPhase pol angles with
      | none => s
      | some p =>
        if p ≠ s.current_phase then
          { current_phase := p,
            rep_count :=
              if s.current_phase = pol.cycleEndPhase ∧ p = pol.cycleStartPhase
              then s.rep_count + 1 else s.rep_count,
            last_exercise := s.last_exercise }
        else s

/-- Modelled from the spec: the quality-gate error taxonomy. Non-finite
inputs have no rational counterpart, so over this model the NonNumeric case
never arises. -/
inductive QualityError where
  | ShapeError
  | NonNumericError
  | DegeneratePoseError
deriving DecidableEq

/-- Modelled from the spec: the near-zero visibility threshold, default 5.0
degrees. -/
def visibilityThreshold : ℚ := 5

/-- Modelled from the spec: how many of the incoming angles are below the
visibility threshold. -/
def countBelowThreshold (angles : List ℚ) : ℕ :=
  (angles.filter (fun a => a < visibilityThreshold)).length

/-- Modelled from the spec: the quality gate. Wrong arity fails with the
shape error; more than 6 of the 9 values below the visibility threshold
fails with the degenerate-pose error. -/
def validate (angles : List ℚ) : Except QualityError Unit :=
  if angles.length ≠ 9 then .error .ShapeError
  else if 6 < countBelowThreshold angles then .error .DegeneratePoseError
  else .ok ()

/-- Modelled from the spec: the externally visible prediction record. -/
structure PredictionResult where
  exercise : String
  confidence : ℚ
  phase : String
  rep_count : ℕ
  quality_score : ℚ
  exercise_match : Bool
deriving DecidableEq

/-- Modelled from the spec: the prediction orchestrator. The opaque
classifier adapter (feature extraction composed with the trained or mock
model) is passed in as a function from the angle vector to a label and a
confidence. A gate failure short-circuits with quality score 0 and the
session untouched; otherwise the state machine advances and the result
blends the visibility ratio with the classifier confidence into the quality
score. -/
def predict (classify : List ℚ → String × ℚ) (s : SessionState)
    (angles : List ℚ) (selected : Option String) :
    SessionState × PredictionResult :=
  match validate angles with
  | .error _ =>
    (s, { exercise := "unknown", confidence := 0, phase := s.current_phase,
          rep_count := s.rep_count, quality_score := 0,
          exercise_match := false })
  | .ok _ =>
    let c := classify angles
    let s' := advance s angles c.1 selected
    let visShare : ℚ := ((9 - countBelowThreshold angles : ℕ) : ℚ) / 9
    (s', { exercise := c.1, confidence := c.2, phase := s'.current_phase,
           rep_count := s'.rep_count,
           quality_score := (visShare + c.2) / 2,
           exercise_match := decide (selected = some c.1) })

/-- Modelled from the spec: the repetition counts returned by a sequence of
predict calls on one session, threading the session state through the
calls. -/
def predictTrace (classify : List ℚ → String × ℚ) (s : SessionState) :
    List (List ℚ × Option String) → List ℕ
  | [] => []
  | call :: rest =>
    let r := predict classify s call.1 call.2
    r.2.rep_count :: predictTrace classify r.1 rest

/-! Helper lemmas shared by the claim theorems. -/

/-- Both configured policies separate the start-of-cycle phase from the
end-of-cycle phase. -/
lemma policyFor_start_ne_end {e : String} {pol : PhasePolicy}
    (h : policyFor e = some pol) : pol.cycleStartPhase ≠ pol.cycleEndPhase := by
  unfold policyFor at h
  split at h
  · cases h; decide
  · cases h; decide
  · cases h

/-- A 9-element vector with at most 6 low-visibility values passes the
quality gate. -/
lemma validate_ok {l : List ℚ} (h9 : l.length = 9)
    (hc : countBelowThreshold l ≤ 6) : validate l = .ok () := by
  have hc' : ¬ 6 < countBelowThreshold l := by omega
  simp [validate, h9, hc']

/-- On a gate pass, the session returned by predict is the advanced one. -/
lemma predict_session_ok (classify : List ℚ → String × ℚ) (s : SessionState)
    (angles : List ℚ) (selected : Option String)
    (hok : validate angles = .ok ()) :
    (predict classify s angles selected).1 =
      advance s angles (classify angles).1 selected := by
  simp [predict, hok]

/-- Primary angle above the high threshold implies the high phase. -/
lemma instPhase_high {pol : PhasePolicy} {angles : List ℚ}
    (h : angles.getD pol.primarySlot 0 > pol.highThreshold) :
    instantaneousPhase pol angles = some pol.highPhase := by
  simp only [instantaneousPhase]
  rw [if_pos h]

/-- Primary angle below the low threshold implies the low phase. -/
lemma instPhase_low {pol : PhasePolicy} {angles : List ℚ}
    (h1 : ¬ angles.getD pol.primarySlot 0 > pol.highThreshold)
    (h2 : angles.getD pol.primarySlot 0 < pol.lowThreshold) :
    instantaneousPhase pol angles = some pol.lowPhase := by
  simp only [instantaneousPhase]
  rw [if_neg h1, if_pos h2]

/-- Primary angle in the dead zone implies no instantaneous phase. -/
lemma instPhase_none {pol : PhasePolicy} {angles : List ℚ}
    (h1 : ¬ angles.getD pol.primarySlot 0 > pol.highThreshold)
    (h2 : ¬ angles.getD pol.primarySlot 0 < pol.lowThreshold) :
    instantaneousPhase pol angles = none := by
  simp only [instantaneousPhase]
  rw [if_neg h1, if_neg h2]

/-- One advance call never decreases the repetition count. -/
lemma advance_rep_mono (s : SessionState) (angles : List ℚ)
    (predicted : String) (selected : Option String) :
    s.rep_count ≤ (advance s angles predicted selected).rep_count := by
  simp only [advance]
  split
  · exact le_refl _
  · split
    · exact le_refl _
    · split
      · exact le_refl _
      · split
        · dsimp only
          split
          · omega
          · exact le_refl _
        · exact le_refl _

/-- One predict call never decreases the session's repetition count. -/
lemma predict_rep_mono (classify : List ℚ → String × ℚ) (s : SessionState)
    (angles : List ℚ) (selected : Option String) :
    s.rep_count ≤ ((predict classify s angles selected).1).rep_count := by
  unfold predict
  cases hv : validate angles with
  | error e => simp
  | ok u => simpa using advance_rep_mono s angles (classify angles).1 selected

/-- The repetition count reported by a predict call equals the one stored in
the session it returns. -/
lemma predict_result_rep (classify : List ℚ → String × ℚ) (s : SessionState)
    (angles : List ℚ) (selected : Option String) :
    ((predict classify s angles selected).2).rep_count =
      ((predict classify s angles selected).1).rep_count := by
  unfold predict
  cases hv : validate angles <;> simp

/-- With no exercise switch and a dead-zone angle, advance is the
identity. -/
lemma advance_none (s : SessionState) (angles : List ℚ) (predicted : String)
    (selected : Option String) (pol : PhasePolicy)
    (hpol : policyFor (selected.getD predicted) = some pol)
    (hsame : s.last_exercise = some (selected.getD predicted))
    (hip : instantaneousPhase pol angles = none) :
    advance s angles predicted selected = s := by
  dsimp only [advance]
  split
  · rfl
  · rename_i pol' heq
    rw [hpol] at heq
    injection heq with heq
    subst heq
    rw [if_neg (by simp [hsame]), hip]

/-- With no exercise switch and an instantaneous phase equal to the stored
one, advance is the identity. -/
lemma advance_same_phase (s : SessionState) (angles : List ℚ)
    (predicted : String) (selected : Option String) (pol : PhasePolicy)
    (hpol : policyFor (selected.getD predicted) = some pol)
    (hsame : s.last_exercise = some (selected.getD predicted)) {p : String}
    (hip : instantaneousPhase pol angles = some p)
    (hp : p = s.current_phase) :
    advance s angles predicted selected = s := by
  dsimp only [advance]
  split
  · rfl
  · rename_i pol' heq
    rw [hpol] at heq
    injection heq with heq
    subst heq
    rw [if_neg (by simp [hsame]), hip]
    simp [hp]

/-- With no exercise switch and an instantaneous phase different from the
stored one, advance moves to the new phase and counts a repetition exactly
on the end-of-cycle to start-of-cycle edge. -/
lemma advance_eval (s : SessionState) (angles : List ℚ) (predicted : String)
    (selected : Option String) (pol : PhasePolicy)
    (hpol : policyFor (selected.getD predicted) = some pol)
    (hsame : s.last_exercise = some (selected.getD predicted)) {p : String}
    (hip : instantaneousPhase pol angles = some p)
    (hp : p ≠ s.current_phase) :
    advance s angles predicted selected =
      { current_phase := p,
        rep_count :=
          if s.current_phase = pol.cycleEndPhase ∧ p = pol.cycleStartPhase
          then s.rep_count + 1 else s.rep_count,
        last_exercise := s.last_exercise } := by
  dsimp only [advance]
  split
  · rename_i heq
    rw [hpol] at heq
    cases heq
  · rename_i pol' heq
    rw [hpol] at heq
    injection heq with heq
    subst heq
    rw [if_neg (by simp [hsame]), hip]
    simp [hp]

/-- Degrees computed from an arccos value always land in [0, 180]. -/
lemma arccos_deg_bounds (x : ℝ) :
    0 ≤ Real.arccos x * 180 / Real.pi ∧ Real.arccos x * 180 / Real.pi ≤ 180 := by
  have hpi := Real.pi_pos
  constructor
  · have h := Real.arccos_nonneg x
    positivity
  · have h := Real.arccos_le_pi x
    rw [div_le_iff hpi]
    nlinarith

/-- The atan2 model stays in (-pi, pi]. -/
lemma atan2_mem (y x : ℝ) : -Real.pi < atan2 y x ∧ atan2 y x ≤ Real.pi :=
  ⟨Complex.neg_pi_lt_arg _, Complex.arg_le_pi _⟩

/-- C3: the squat detector assigns phase up above an average knee angle of
150 and down below 100, the bicep-curl detector assigns phase down above an
average elbow angle of 150 and up below 60, and in the dead zone between an
exercise's two thresholds neither an up nor a down phase is assigned. -/
theorem detector_phase_thresholds (lk rk le re : ℚ) :
    ((jsOrDefault lk 180 + jsOrDefault rk 180) / 2 > 150 →
      (detectSquat lk rk).phase = "up") ∧
    ((jsOrDefault lk 180 + jsOrDefault rk 180) / 2 < 100 →
      (detectSquat lk rk).phase = "down") ∧
    (100 ≤ (jsOrDefault lk 180 + jsOrDefault rk 180) / 2 →
      (jsOrDefault lk 180 + jsOrDefault rk 180) / 2 ≤ 150 →
      (detectSquat lk rk).phase ≠ "up" ∧ (detectSquat lk rk).phase ≠ "down") ∧
    ((jsOrDefault le 180 + jsOrDefault re 180) / 2 > 150 →
      (detectBicepCurl le re).phase = "down") ∧
    ((jsOrDefault le 180 + jsOrDefault re 180) / 2 < 60 →
      (detectBicepCurl le re).phase = "up") ∧
    (60 ≤ (jsOrDefault le 180 + jsOrDefault re 180) / 2 →
      (jsOrDefault le 180 + jsOrDefault re 180) / 2 ≤ 150 →
      (detectBicepCurl le re).phase ≠ "up" ∧
        (detectBicepCurl le re).phase ≠ "down") := by
  refine ⟨?_, ?_, ?_, ?_, ?_, ?_⟩
  · intro h
    simp only [detectSquat]
    rw [if_pos h]
  · intro h
    simp only [detectSquat]
    rw [if_neg (by push_neg; linarith), if_pos h]
  · intro h1 h2
    simp only [detectSquat]
    rw [if_neg (by push_neg; linarith), if_neg (by push_neg; linarith)]
    exact ⟨by decide, by decide⟩
  · intro h
    simp only [detectBicepCurl]
    rw [if_pos h]
  · intro h
    simp only [detectBicepCurl]
    rw [if_neg (by push_neg; linarith), if_pos h]
  · intro h1 h2
    simp only [detectBicepCurl]
    rw [if_neg (by push_neg; linarith), if_neg (by push_neg; linarith)]
    exact ⟨by decide, by decide⟩

/-- C3 witness: at knee angles of 175 the squat detector reports up, and at
elbow angles of 45 the curl detector reports up. -/
theorem detector_phase_thresholds_witness :
    ((jsOrDefault (175:ℚ) 180 + jsOrDefault 175 180) / 2 > 150 ∧
      (detectSquat 175 175).phase = "up") ∧
    ((jsOrDefault (45:ℚ) 180 + jsOrDefault 45 180) / 2 < 60 ∧
      (detectBicepCurl 45 45).phase = "up") :=
  have hyp1 : (jsOrDefault (175:ℚ) 180 + jsOrDefault 175 180) / 2 > 150 := by
    norm_num [jsOrDefault]
  have hyp2 : (jsOrDefault (45:ℚ) 180 + jsOrDefault 45 180) / 2 < 60 := by
    norm_num [jsOrDefault]
  ⟨⟨hyp1, (detector_phase_thresholds 175 175 45 45).1 hyp1⟩,
   ⟨hyp2, (detector_phase_thresholds 175 175 45 45).2.2.2.2.1 hyp2⟩⟩

/-- C8: for every landmark-list input, including null and short lists, the
extraction returns exactly 9 values, and on a full 33-landmark list they are,
in order, the shoulder, alternate-shoulder, elbow, alternate-elbow, hip,
alternate-hip, knee, alternate-knee and spine slot angles. -/
theorem extract_nine_slot_order (landmarks : Option (List Pt)) :
    (extractJointAngles landmarks).length = 9 ∧
    ∀ lms : List Pt, landmarks = some lms → 33 ≤ lms.length →
      extractJointAngles landmarks =
        [ shoulderAngle lms, shoulderAltAngle lms, elbowAngle lms,
          elbowAltAngle lms, hipAngle lms, hipAltAngle lms, kneeAngle lms,
          kneeAltAngle lms, spineAngle lms ] := by
  constructor
  · cases landmarks with
    | none => simp [extractJointAngles]
    | some lms =>
      simp only [extractJointAngles]
      split
      · simp
      · simp
  · intro lms hEq hLen
    subst hEq
    simp only [extractJointAngles]
    rw [if_neg (by omega)]

/-- A concrete full-length landmark list for the extraction witnesses. -/
def sampleLandmarks : List Pt := List.replicate 33 defaultPt

/-- C8 witness: on a concrete 33-landmark list the extraction has length 9
and equals the ordered slot-angle list. -/
theorem extract_nine_slot_order_witness :
    33 ≤ sampleLandmarks.length ∧
    (extractJointAngles (some sampleLandmarks)).length = 9 ∧
    extractJointAngles (some sampleLandmarks) =
      [ shoulderAngle sampleLandmarks, shoulderAltAngle sampleLandmarks,
        elbowAngle sampleLandmarks, elbowAltAngle sampleLandmarks,
        hipAngle sampleLandmarks, hipAltAngle sampleLandmarks,
        kneeAngle sampleLandmarks, kneeAltAngle sampleLandmarks,
        spineAngle sampleLandmarks ] :=
  have h : 33 ≤ sampleLandmarks.length := by simp [sampleLandmarks]
  ⟨h, (extract_nine_slot_order (some sampleLandmarks)).1,
     (extract_nine_slot_order (some sampleLandmarks)).2 sampleLandmarks rfl h⟩

/-- C9: the extraction is a total function, and on a null landmark list or
one with fewer than 33 entries it returns the 9-element all-zero vector
instead of failing. -/
theorem extract_total_fallback :
    extractJointAngles none = List.replicate 9 0 ∧
    ∀ lms : List Pt, lms.length < 33 →
      extractJointAngles (some lms) = List.replicate 9 0 := by
  constructor
  · rfl
  · intro lms h
    simp only [extractJointAngles]
    rw [if_pos h]

/-- C9 witness: the empty landmark list is short and maps to nine zeros. -/
theorem extract_total_fallback_witness :
    ([] : List Pt).length < 33 ∧
    extractJointAngles (some ([] : List Pt)) = List.replicate 9 0 :=
  ⟨by decide, extract_total_fallback.2 [] (by decide)⟩

/-- C10: for points whose difference vectors around the middle point are
non-zero, both angle computations return a value in [0, 180]: the
dot-product variant because the cosine is clamped before arccos, and the
atan2 variant because results above 180 are folded to 360 minus the value. -/
theorem angle_functions_bounded (p1 p2 p3 : Pt)
    (h1 : p1.x - p2.x ≠ 0 ∨ p1.y - p2.y ≠ 0)
    (h2 : p3.x - p2.x ≠ 0 ∨ p3.y - p2.y ≠ 0) :
    (0 ≤ calculateAngle p1 p2 p3 ∧ calculateAngle p1 p2 p3 ≤ 180) ∧
    (0 ≤ mpCalculateAngle p1 p2 p3 ∧ mpCalculateAngle p1 p2 p3 ≤ 180) := by
  constructor
  · simp only [calculateAngle]
    exact arccos_deg_bounds _
  · have hA := atan2_mem (p3.y - p2.y) (p3.x - p2.x)
    have hB := atan2_mem (p1.y - p2.y) (p1.x - p2.x)
    have hpi := Real.pi_pos
    simp only [mpCalculateAngle]
    set r := atan2 (p3.y - p2.y) (p3.x - p2.x) -
      atan2 (p1.y - p2.y) (p1.x - p2.x) with hr
    have habs : |r * 180 / Real.pi| < 360 := by
      rw [abs_div, abs_of_pos hpi, abs_mul,
        abs_of_pos (show (0:ℝ) < 180 by norm_num), div_lt_iff hpi]
      have hlt : |r| < 2 * Real.pi := by
        rw [abs_lt]
        constructor <;> [linarith [hA.1, hB.2]; linarith [hA.2, hB.1]]
      nlinarith [abs_nonneg r]
    have hnn : 0 ≤ |r * 180 / Real.pi| := abs_nonneg _
    by_cases h : |r * 180 / Real.pi| > 180
    · rw [if_pos h]
      constructor <;> linarith
    · rw [if_neg h]
      exact ⟨hnn, by linarith [not_lt.mp h]⟩

/-- C10 witness: at the right-angle corner (1,0), (0,0), (0,1) both
difference vectors are non-zero and both angle computations are bounded. -/
theorem angle_functions_bounded_witness :
    ((Pt.mk 1 0).x - (Pt.mk 0 0).x ≠ 0 ∨ (Pt.mk 1 0).y - (Pt.mk 0 0).y ≠ 0) ∧
    ((Pt.mk 0 1).x - (Pt.mk 0 0).x ≠ 0 ∨ (Pt.mk 0 1).y - (Pt.mk 0 0).y ≠ 0) ∧
    ((0 ≤ calculateAngle ⟨1, 0⟩ ⟨0, 0⟩ ⟨0, 1⟩ ∧
        calculateAngle ⟨1, 0⟩ ⟨0, 0⟩ ⟨0, 1⟩ ≤ 180) ∧
      (0 ≤ mpCalculateAngle ⟨1, 0⟩ ⟨0, 0⟩ ⟨0, 1⟩ ∧
        mpCalculateAngle ⟨1, 0⟩ ⟨0, 0⟩ ⟨0, 1⟩ ≤ 180)) :=
  have hh1 : (Pt.mk 1 0).x - (Pt.mk 0 0).x ≠ 0 ∨
      (Pt.mk 1 0).y - (Pt.mk 0 0).y ≠ 0 := Or.inl (by norm_num)
  have hh2 : (Pt.mk 0 1).x - (Pt.mk 0 0).x ≠ 0 ∨
      (Pt.mk 0 1).y - (Pt.mk 0 0).y ≠ 0 := Or.inr (by norm_num)
  ⟨hh1, hh2, angle_functions_bounded ⟨1, 0⟩ ⟨0, 0⟩ ⟨0, 1⟩ hh1 hh2⟩

/-- A standing squat frame: knee slot (index 6) at 175 degrees, taken from
the repository's HTTP test scripts. -/
def frameStand : List ℚ := [95, 170, 170, 175, 175, 175, 175, 90, 90]

/-- A deep-squat frame: knee slot at 90 degrees, from the same scripts. -/
def frameDeep : List ℚ := [80, 140, 140, 90, 90, 90, 90, 70, 70]

/-- A curl frame with the elbow slot (index 2) in the dead zone at 120. -/
def frameDeadZone : List ℚ := [90, 90, 120, 120, 175, 175, 175, 175, 90]

/-- A degenerate frame: seven of its nine values are below the visibility
threshold. -/
def frameDegenerate : List ℚ := [0, 0, 0, 0, 0, 0, 0, 170, 170]

/-- A constant stand-in for the opaque classifier, used by the witnesses. -/
def constClassify : List ℚ → String × ℚ := fun _ => ( "squat", 1)

/-- C1: on a call whose effective exercise matches the session's previous
one, advance increments the repetition count by exactly 1 when and only when
the stored phase is the policy's end-of-cycle phase and the newly computed
instantaneous phase is its start-of-cycle phase; on every other call it
returns the count unchanged. -/
theorem per_frame_rep_edge (s : SessionState) (angles : List ℚ)
    (predicted : String) (selected : Option String) (pol : PhasePolicy)
    (hpol : policyFor (selected.getD predicted) = some pol)
    (hsame : s.last_exercise = some (selected.getD predicted)) :
    (advance s angles predicted selected).rep_count =
      if s.current_phase = pol.cycleEndPhase ∧
          instantaneousPhase pol angles = some pol.cycleStartPhase
      then s.rep_count + 1 else s.rep_count := by
  have hne := policyFor_start_ne_end hpol
  cases hip : instantaneousPhase pol angles with
  | none =>
    rw [advance_none s angles predicted selected pol hpol hsame hip]
    rw [if_neg (by rintro ⟨h1, h2⟩; cases h2)]
  | some p =>
    by_cases hp : p = s.current_phase
    · rw [advance_same_phase s angles predicted selected pol hpol hsame hip hp]
      have hcond : ¬ (s.current_phase = pol.cycleEndPhase ∧
          (some p : Option String) = some pol.cycleStartPhase) := by
        rintro ⟨hc, hs⟩
        injection hs with hs
        exact hne (by rw [← hs, hp, hc])
      rw [if_neg hcond]
    · rw [advance_eval s angles predicted selected pol hpol hsame hip hp]
      dsimp only
      by_cases hc : s.current_phase = pol.cycleEndPhase ∧
        p = pol.cycleStartPhase
      · rw [if_pos hc, if_pos ⟨hc.1, by rw [hc.2]⟩]
      · have hcond : ¬ (s.current_phase = pol.cycleEndPhase ∧
            (some p : Option String) = some pol.cycleStartPhase) := by
          rintro ⟨a, b⟩
          injection b with b
          exact hc ⟨a, b⟩
        rw [if_neg hc, if_neg hcond]

/-- C1 witness: from stored phase down with a standing squat frame the rep
count goes from 3 to 4, the edge condition holding. -/
theorem per_frame_rep_edge_witness :
    policyFor ((some "squat").getD "squat") = some squatPolicy ∧
    (SessionState.mk "down" 3 (some "squat")).last_exercise =
      some ((some "squat").getD "squat") ∧
    (advance ⟨"down", 3, some "squat"⟩ frameStand "squat"
        (some "squat")).rep_count =
      if (SessionState.mk "down" 3 (some "squat")).current_phase =
            squatPolicy.cycleEndPhase ∧
          instantaneousPhase squatPolicy frameStand =
            some squatPolicy.cycleStartPhase
      then 3 + 1 else 3 :=
  ⟨rfl, rfl,
    per_frame_rep_edge ⟨"down", 3, some "squat"⟩ frameStand "squat"
      (some "squat") squatPolicy rfl rfl⟩

/-- C2: from a freshly reset squat session, three frames whose knee angle is
above 150, then below 100, then above 150 (all passing the quality gate)
leave the repetition count at exactly 1. -/
theorem squat_full_cycle_one_rep (classify : List ℚ → String × ℚ)
    (f1 f2 f3 : List ℚ)
    (hl1 : f1.length = 9) (hl2 : f2.length = 9) (hl3 : f3.length = 9)
    (hq1 : countBelowThreshold f1 ≤ 6) (hq2 : countBelowThreshold f2 ≤ 6)
    (hq3 : countBelowThreshold f3 ≤ 6)
    (hk1 : f1.getD 6 0 > 150) (hk2 : f2.getD 6 0 < 100)
    (hk3 : f3.getD 6 0 > 150) :
    ((predict classify
      ((predict classify
        ((predict classify (resetSession (some "squat")) f1
          (some "squat")).1)
        f2 (some "squat")).1)
      f3 (some "squat")).1).rep_count = 1 := by
  have hip1 : instantaneousPhase squatPolicy f1 = some "up" :=
    instPhase_high hk1
  have hip2 : instantaneousPhase squatPolicy f2 = some "down" :=
    instPhase_low (show ¬ f2.getD 6 0 > (150:ℚ) by push_neg; linarith) hk2
  have hip3 : instantaneousPhase squatPolicy f3 = some "up" :=
    instPhase_high hk3
  have st1 : (predict classify (resetSession (some "squat")) f1
      (some "squat")).1 = resetSession (some "squat") := by
    rw [predict_session_ok _ _ _ _ (validate_ok hl1 hq1)]
    exact advance_same_phase (resetSession (some "squat")) f1
      ((classify f1).1) (some "squat") squatPolicy rfl rfl hip1 rfl
  rw [st1]
  have st2 : (predict classify (resetSession (some "squat")) f2
      (some "squat")).1 = SessionState.mk "down" 0 (some "squat") := by
    rw [predict_session_ok _ _ _ _ (validate_ok hl2 hq2)]
    have h := advance_eval (resetSession (some "squat")) f2
      ((classify f2).1) (some "squat") squatPolicy rfl rfl hip2 (by decide)
    rw [h]
    decide
  rw [st2]
  have st3 : (predict classify (SessionState.mk "down" 0 (some "squat")) f3
      (some "squat")).1 = SessionState.mk "up" 1 (some "squat") := by
    rw [predict_session_ok _ _ _ _ (validate_ok hl3 hq3)]
    have h := advance_eval (SessionState.mk "down" 0 (some "squat")) f3
      ((classify f3).1) (some "squat") squatPolicy rfl rfl hip3 (by decide)
    rw [h]
    decide
  rw [st3]

/-- C2 witness: the concrete stand / deep-squat / stand frames from the
repository's test scripts produce exactly one repetition. -/
theorem squat_full_cycle_one_rep_witness :
    (frameStand.length = 9 ∧ frameDeep.length = 9 ∧
      countBelowThreshold frameStand ≤ 6 ∧
      countBelowThreshold frameDeep ≤ 6 ∧
      frameStand.getD 6 0 > 150 ∧ frameDeep.getD 6 0 < 100) ∧
    ((predict constClassify
      ((predict constClassify
        ((predict constClassify (resetSession (some "squat")) frameStand
          (some "squat")).1)
        frameDeep (some "squat")).1)
      frameStand (some "squat")).1).rep_count = 1 :=
  have hk1 : frameStand.getD 6 0 > 150 := by norm_num [frameStand]
  have hk2 : frameDeep.getD 6 0 < 100 := by norm_num [frameDeep]
  ⟨⟨rfl, rfl, by norm_num [countBelowThreshold, frameStand,
      visibilityThreshold],
    by norm_num [countBelowThreshold, frameDeep, visibilityThreshold],
    hk1, hk2⟩,
   squat_full_cycle_one_rep constClassify frameStand frameDeep frameStand
     rfl rfl rfl (by norm_num [countBelowThreshold, frameStand,
       visibilityThreshold])
     (by norm_num [countBelowThreshold, frameDeep, visibilityThreshold])
     (by norm_num [countBelowThreshold, frameStand, visibilityThreshold])
     hk1 hk2 hk1⟩

/-- C4: a bicep-curl frame whose elbow slot lies in the dead zone between
the thresholds leaves the session (phase and repetition count) unchanged. -/
theorem curl_dead_zone_stable (classify : List ℚ → String × ℚ)
    (s : SessionState) (angles : List ℚ)
    (hsame : s.last_exercise = some "bicep_curl")
    (hlo : 60 ≤ angles.getD 2 0) (hhi : angles.getD 2 0 ≤ 150) :
    (predict classify s angles (some "bicep_curl")).1 = s := by
  have hip : instantaneousPhase curlPolicy angles = none :=
    instPhase_none (show ¬ angles.getD 2 0 > (150:ℚ) by push_neg; exact hhi)
      (show ¬ angles.getD 2 0 < (60:ℚ) by push_neg; exact hlo)
  unfold predict
  cases hv : validate angles with
  | error e => simp
  | ok u =>
    simpa using advance_none s angles ((classify angles).1)
      (some "bicep_curl") curlPolicy rfl hsame hip

/-- C4 witness: an elbow angle of 120 leaves a curl session with phase down
and five repetitions untouched. -/
theorem curl_dead_zone_stable_witness :
    ((SessionState.mk "down" 5 (some "bicep_curl")).last_exercise =
      some "bicep_curl" ∧
     60 ≤ frameDeadZone.getD 2 0 ∧ frameDeadZone.getD 2 0 ≤ 150) ∧
    (predict constClassify ⟨"down", 5, some "bicep_curl"⟩ frameDeadZone
      (some "bicep_curl")).1 = ⟨"down", 5, some "bicep_curl"⟩ :=
  have hlo : (60:ℚ) ≤ frameDeadZone.getD 2 0 := by norm_num [frameDeadZone]
  have hhi : frameDeadZone.getD 2 0 ≤ (150:ℚ) := by norm_num [frameDeadZone]
  ⟨⟨rfl, hlo, hhi⟩,
   curl_dead_zone_stable constClassify ⟨"down", 5, some "bicep_curl"⟩
     frameDeadZone rfl hlo hhi⟩

/-- C5: for a fixed session, the repetition counts returned by any sequence
of predict calls with no intervening reset form a non-decreasing list. -/
theorem rep_counts_nondecreasing (classify : List ℚ → String × ℚ)
    (s : SessionState) (calls : List (List ℚ × Option String)) :
    List.Chain' (· ≤ ·) (predictTrace classify s calls) := by
  induction calls generalizing s with
  | nil => simp [predictTrace]
  | cons c rest ih =>
    show List.Chain' (· ≤ ·) ((predict classify s c.1 c.2).2.rep_count ::
      predictTrace classify (predict classify s c.1 c.2).1 rest)
    refine List.chain'_cons'.mpr ⟨?_, ih _⟩
    intro y hy
    cases rest with
    | nil => simp [predictTrace] at hy
    | cons c2 rest2 =>
      have hy' : (predict classify (predict classify s c.1 c.2).1 c2.1
          c2.2).2.rep_count = y := by
        simpa [predictTrace] using hy
      rw [predict_result_rep, ← hy', predict_result_rep]
      exact predict_rep_mono classify (predict classify s c.1 c.2).1 c2.1 c2.2

/-- C6: a 9-element frame with at least 7 values below the visibility
threshold fails validation with the degenerate-pose error, and predict then
reports quality score 0 and leaves the session unchanged. -/
theorem degenerate_pose_guard (classify : List ℚ → String × ℚ)
    (s : SessionState) (angles : List ℚ) (selected : Option String)
    (h9 : angles.length = 9) (h7 : 7 ≤ countBelowThreshold angles) :
    validate angles = .error .DegeneratePoseError ∧
    (predict classify s angles selected).2.quality_score = 0 ∧
    (predict classify s angles selected).1 = s := by
  have hval : validate angles = .error .DegeneratePoseError := by
    have hgt : 6 < countBelowThreshold angles := by omega
    simp [validate, h9, hgt]
  refine ⟨hval, ?_, ?_⟩ <;> simp [predict, hval]

/-- C6 witness: a frame with seven near-zero values trips the degenerate
gate, zeroes the quality score and leaves the session untouched. -/
theorem degenerate_pose_guard_witness :
    (frameDegenerate.length = 9 ∧ 7 ≤ countBelowThreshold frameDegenerate) ∧
    (validate frameDegenerate = .error .DegeneratePoseError ∧
     (predict constClassify ⟨"up", 2, some "squat"⟩ frameDegenerate
       none).2.quality_score = 0 ∧
     (predict constClassify ⟨"up", 2, some "squat"⟩ frameDegenerate
       none).1 = ⟨"up", 2, some "squat"⟩) :=
  have h7 : 7 ≤ countBelowThreshold frameDegenerate := by
    norm_num [countBelowThreshold, frameDegenerate, visibilityThreshold]
  ⟨⟨rfl, h7⟩,
   degenerate_pose_guard constClassify ⟨"up", 2, some "squat"⟩
     frameDegenerate none rfl h7⟩

/-- C7: a predict call whose effective exercise differs from the previous
call's resets the phase to the new exercise's entry phase while leaving the
repetition count exactly as it was; and no predict call can zero a non-zero
repetition count. -/
theorem exercise_switch_preserves (s : SessionState) (angles : List ℚ)
    (predicted : String) (selected : Option String) (pol : PhasePolicy)
    (hpol : policyFor (selected.getD predicted) = some pol)
    (hne : s.last_exercise ≠ some (selected.getD predicted)) :
    ((advance s angles predicted selected).current_phase = pol.entryPhase ∧
     (advance s angles predicted selected).rep_count = s.rep_count) ∧
    ∀ (classify : List ℚ → String × ℚ) (s2 : SessionState) (a2 : List ℚ)
      (sel2 : Option String),
      ((predict classify s2 a2 sel2).1).rep_count = 0 → s2.rep_count = 0 := by
  constructor
  · dsimp only [advance]
    split
    · rename_i heq
      rw [hpol] at heq
      cases heq
    · rename_i pol' heq
      rw [hpol] at heq
      injection heq with heq
      subst heq
      rw [if_pos hne]
      exact ⟨rfl, rfl⟩
  · intro classify s2 a2 sel2 h0
    have hm := predict_rep_mono classify s2 a2 sel2
    omega

/-- C7 witness: switching a squat session holding two reps to bicep curl
resets the phase to the curl entry phase and keeps the count at two. -/
theorem exercise_switch_preserves_witness :
    (policyFor ((some "bicep_curl").getD "squat") = some curlPolicy ∧
     (SessionState.mk "up" 2 (some "squat")).last_exercise ≠
       some ((some "bicep_curl").getD "squat")) ∧
    ((advance ⟨"up", 2, some "squat"⟩ frameDeadZone "squat"
        (some "bicep_curl")).current_phase = curlPolicy.entryPhase ∧
     (advance ⟨"up", 2, some "squat"⟩ frameDeadZone "squat"
        (some "bicep_curl")).rep_count = 2) :=
  have hne : (SessionState.mk "up" 2 (some "squat")).last_exercise ≠
      some ((some "bicep_curl").getD "squat") := by decide
  ⟨⟨rfl, hne⟩,
   (exercise_switch_preserves ⟨"up", 2, some "squat"⟩ frameDeadZone "squat"
     (some "bicep_curl") curlPolicy rfl hne).1⟩

end Physio
